import Mathlib

/-
  Verification of the pigallery2 core against its natural-language
  specification.

  Shallow embedding of:
  - backend/model/sql/GalleryManager.ts (listDirectory, indexDirectory
    photo reconciliation),
  - src/backend/model/fileaccess/MetadataLoader.ts (loadPhotoMetadata,
    loadVideoMetadata).

  External collaborators (filesystem, SQL store, the exifr / iptc / ffprobe
  byte-level codecs, the JS Date.parse builtin) are modelled as inputs:
  each embedded function takes the structured result of those calls as an
  environment, mirroring the spec, which treats them as pluggable parsers.
  JS-specific semantics that the source relies on (truthiness, the loose
  inequality on object references, exceptions aborting a try block midway)
  are modelled explicitly below.
-/

namespace PiGallery2

/-! ## JS primitive semantics -/

/-- JS truthiness of a possibly-undefined string: undefined and the empty
string are falsy. -/
def jsTruthyStr : Option String → Bool
  | some s => s ≠ ""
  | none => false

/-- JS truthiness of a possibly-undefined number (integral): undefined and 0
are falsy. -/
def jsTruthyInt : Option Int → Bool
  | some v => v ≠ 0
  | none => false

/-- JS logical-or on possibly-undefined strings: a || b returns a when a is
truthy, otherwise b (whatever the truthiness of b). -/
def jsOrStr (a b : Option String) : Option String :=
  if jsTruthyStr a then a else b

/-- JS logical-or of a possibly-undefined number against a number:
used for chains of the form Date.parse(x) || previous. NaN is modelled as
none. -/
def jsOrNum (a : Option Int) (b : Int) : Int :=
  match a with
  | some v => if v ≠ 0 then v else b
  | none => b

/-- Math.round of the source: floor of x + 1/2 (JS rounds half toward
positive infinity). -/
def jsRound (q : ℚ) : ℤ := ⌊q + 1 / 2⌋

/-! ## GalleryManager.listDirectory (backend/model/sql/GalleryManager.ts)

The SQL store and the filesystem stat are inputs; the function result is
abstracted to which of the three possible responses the method produces:
the no-data cache-valid response (the literal null return), the persisted
tree (optionally also firing a detached background rescan), or the result
of a synchronous indexDirectory call. -/

/-- ReIndexingSensitivity enum of the config. -/
inductive Sens
  | low
  | medium
  | high
deriving DecidableEq, Repr

/-- Numeric value of the sensitivity enum, used for the >= comparisons of
the source. -/
def Sens.val : Sens → Nat
  | .low => 0
  | .medium => 1
  | .high => 2

/-- Config.Server.indexing, restricted to the fields listDirectory reads. -/
structure IndexingConfig where
  reIndexingSensitivity : Sens
  cachedFolderTimeout : Int
deriving Repr

/-- The persisted directory row joined by listDirectory, restricted to the
fields its control flow reads. -/
structure DirRecord where
  scanned : Bool
  lastModified : Int
  lastScanned : Int
deriving Repr

/-- The three response shapes of listDirectory. -/
inductive ListDirResult
  | cacheValid
  | persisted (backgroundRescan : Bool)
  | reindexed
deriving DecidableEq, Repr

/-- The tail of the scanned-branch of listDirectory: synchronous reindex on
a lastModified mismatch, otherwise the persisted tree, with a detached
background rescan exactly under the staleness condition of the source. -/
def listDirRest (cfg : IndexingConfig) (now diskLastModified : Int)
    (d : DirRecord) : ListDirResult :=
  if d.lastModified ≠ diskLastModified then .reindexed
  else .persisted
    ((decide (now - d.lastScanned > cfg.cachedFolderTimeout) &&
      decide (Sens.medium.val ≤ cfg.reIndexingSensitivity.val)) ||
      decide (Sens.high.val ≤ cfg.reIndexingSensitivity.val))

/-- GalleryManager.listDirectory, over the stat result, the persisted row,
and the two caller-supplied staleness hints (undefined modelled as none). -/
def listDirectory (cfg : IndexingConfig) (now diskLastModified : Int)
    (dir : Option DirRecord)
    (knownLastModified knownLastScanned : Option Int) : ListDirResult :=
  match dir with
  | some d =>
    if d.scanned then
      if jsTruthyInt knownLastModified && jsTruthyInt knownLastScanned &&
          (knownLastModified == some diskLastModified) &&
          (knownLastScanned == some d.lastScanned) then
        if cfg.reIndexingSensitivity = .low then .cacheValid
        else if decide (now - (knownLastScanned.getD 0) ≤ cfg.cachedFolderTimeout) &&
            (cfg.reIndexingSensitivity == .medium) then .cacheValid
        else listDirRest cfg now diskLastModified d
      else listDirRest cfg now diskLastModified d
    else .reindexed
  | none => .reindexed

/-! ## GalleryManager.indexDirectory: photo reconciliation

The diff of the scanned photo list against the persisted photo list of the
same directory (source lines 176-215). JS object references matter here:
the changed-check compares the four metadata sub-objects with the loose
inequality !=, which for two objects is reference inequality, and for
undefined vs undefined is false. A reference is modelled as an allocation
id plus a payload; a field is either undefined (none) or a reference. -/

/-- A JS object reference: an allocation identity plus a payload value
(the payload stands for the deep contents of the sub-object). -/
structure ObjRef where
  id : Nat
  val : Nat
deriving DecidableEq, Repr

/-- The four metadata sub-objects compared by indexDirectory. Each is a
possibly-undefined object reference. -/
structure PMetaRefs where
  keywords : Option ObjRef
  cameraData : Option ObjRef
  positionData : Option ObjRef
  size : Option ObjRef
deriving DecidableEq, Repr

/-- A photo row (scanned or persisted). -/
structure DbPhoto where
  name : String
  metadata : PMetaRefs
deriving DecidableEq, Repr

/-- JS loose inequality != on a possibly-undefined object field: undefined
!= undefined is false, object != object compares references, mixed is
true. -/
def jsNeqField : Option ObjRef → Option ObjRef → Bool
  | none, none => false
  | some a, some b => a.id ≠ b.id
  | _, _ => true

/-- The changed-check of indexDirectory (source lines 202-205): true when
any of the four compared fields is loosely unequal. -/
def metaDiffers (a b : PMetaRefs) : Bool :=
  jsNeqField a.keywords b.keywords || jsNeqField a.cameraData b.cameraData ||
  jsNeqField a.positionData b.positionData || jsNeqField a.size b.size

/-- The splice-based search of the inner loop: find the first persisted
photo with the given name, returning it together with the list with that
element removed. -/
def extractFirst (nm : String) : List DbPhoto → Option (DbPhoto × List DbPhoto)
  | [] => none
  | p :: rest =>
    if p.name = nm then some (p, rest)
    else match extractFirst nm rest with
      | some (q, rest2) => some (q, p :: rest2)
      | none => none

/-- Utils.clone of a field: a fresh allocation with an equal payload. -/
def cloneField (base : Nat) : Option ObjRef → Option ObjRef
  | none => none
  | some o => some ⟨base, o.val⟩

/-- Accumulator of the photo loop: the shrinking persisted working set, the
matched photos pushed to photosToSave, the cloned new photos pushed to
photosToSave, and a fresh-allocation counter for clones. -/
structure RecState where
  indexed : List DbPhoto
  updates : List DbPhoto
  inserts : List DbPhoto
  fresh : Nat
deriving Repr

/-- One iteration of the photo loop of indexDirectory (source lines
183-213): splice out the name match if any, else clone the scanned photo;
then push to photosToSave when the loose changed-check fires, copying the
scanned sub-object references into the saved row. -/
def photoStep (st : RecState) (sp : DbPhoto) : RecState :=
  match extractFirst sp.name st.indexed with
  | some (dbp, rest) =>
    if metaDiffers dbp.metadata sp.metadata then
      { st with indexed := rest,
                updates := st.updates ++ [{ dbp with metadata := sp.metadata }] }
    else { st with indexed := rest }
  | none =>
    let cloned : DbPhoto :=
      { name := sp.name,
        metadata := { keywords := cloneField st.fresh sp.metadata.keywords,
                      cameraData := cloneField (st.fresh + 1) sp.metadata.cameraData,
                      positionData := cloneField (st.fresh + 2) sp.metadata.positionData,
                      size := cloneField (st.fresh + 3) sp.metadata.size } }
    if metaDiffers cloned.metadata sp.metadata then
      { st with inserts := st.inserts ++ [{ cloned with metadata := sp.metadata }],
                fresh := st.fresh + 4 }
    else { st with fresh := st.fresh + 4 }

/-- Result of the photo phase of one indexDirectory pass: saved updates of
matched rows, saved inserts of new rows, and the remaining persisted rows
passed to repository remove. -/
structure RecResult where
  updates : List DbPhoto
  inserts : List DbPhoto
  removes : List DbPhoto
deriving DecidableEq, Repr

/-- The photo reconciliation of indexDirectory: fold the loop body over the
scanned photos, starting from the persisted set; whatever is left of the
persisted set is removed. freshBase seeds clone allocation ids. -/
def reconcilePhotos (freshBase : Nat) (scanned indexed : List DbPhoto) :
    RecResult :=
  let st := scanned.foldl photoStep ⟨indexed, [], [], freshBase⟩
  { updates := st.updates, inserts := st.inserts, removes := st.indexed }

/-! ## MetadataLoader.loadPhotoMetadata
(src/backend/model/fileaccess/MetadataLoader.ts)

The byte-level codecs are inputs: the environment carries the structured
outcome of the header read, statSync, IptcParser.parse, exifr.parse, the
image-size probe and exifr.sidecar, each as an Option whose none means the
call threw (every such failure is swallowed by a try of the source). The JS
Date.parse builtin is an abstract parameter dp : String → Option Int, with
none standing for NaN.

Fields whose handling neither can throw nor touches any claimed field
(cameraData make/model/lens/ISO/focalLength/exposure/fStop, positionData
country/state/city/GPSData, title, caption) are omitted from the record:
every access of those source paths is guarded, so omitting them does not
change the control flow modelled here. -/

/-- Post-orientation pixel size. -/
structure MSize where
  width : Int
  height : Int
deriving DecidableEq, Repr

/-- A face box in pixels. -/
structure FaceBox where
  width : Int
  height : Int
  left : Int
  top : Int
deriving DecidableEq, Repr

/-- A detected face region of the final record. -/
structure Face where
  name : String
  box : FaceBox
deriving DecidableEq, Repr

/-- The slice of PhotoMetadata the claims are about. creationDate is a JS
number where none models NaN (a failed Date.parse). -/
structure PhotoMeta where
  size : MSize
  fileSize : Int
  creationDate : Option Int
  creationDateOffset : Option String
  keywords : Option (List String)
  rating : Option Int
  faces : Option (List Face)
deriving DecidableEq, Repr

/-- MetadataLoader.EMPTY_METADATA (source lines 170-174): the record
returned whenever the header read or an unguarded step throws. Its size is
width 0, height 0 in the source. -/
def EMPTY_METADATA : PhotoMeta :=
  { size := ⟨0, 0⟩, fileSize := 0, creationDate := some 0,
    creationDateOffset := none, keywords := none, rating := none,
    faces := none }

/-- The IptcParser.parse result, restricted to the fields that interact
with claimed state: the keyword array and the date_time Date. The string
fields country/state/city/title/caption only set omitted fields. -/
structure IptcData where
  keywords : Option (List String)
  date_time : Option Int
deriving Repr

/-- The IPTC section of loadPhotoMetadata (source lines 246-282): the
keyword array is assigned verbatim when it is an array; a present
date_time Date (an object, hence truthy) overwrites creationDate. -/
def iptcStep (iptc : Option IptcData) (m : PhotoMeta) : PhotoMeta :=
  match iptc with
  | none => m
  | some d =>
    let m1 := match d.keywords with
      | some ks => { m with keywords := some ks }
      | none => m
    match d.date_time with
    | some t => { m1 with creationDate := some t }
    | none => m1

/-- ifd0 section of the exifr.parse output. -/
structure Ifd0 where
  ImageWidth : Option Int
  ImageHeight : Option Int
  Orientation : Option Int
  ModifyDate : Option String
deriving Repr

/-- exif section of the exifr.parse output (timestamp and dimension tags;
the camera-number tags only set omitted fields and cannot throw). -/
structure ExifSec where
  DateTimeOriginal : Option String
  CreateDate : Option String
  OffsetTimeOriginal : Option String
  OffsetTimeDigitized : Option String
  OffsetTime : Option String
  ExifImageWidth : Option Int
  ExifImageHeight : Option Int
deriving Repr

/-- gps section fields read by getTimeOffsetByGPSStamp. The time stamp is
an array (arrays are truthy even when empty); its numeric entries appear
here already coerced to strings, as the join of the source coerces them. -/
structure GpsSec where
  GPSDateStamp : Option String
  GPSTimeStamp : Option (List String)
deriving Repr

/-- The ratio box attributes of a face region (stArea w/h/x/y or the flat
Area w/h/x/y), already parsed to numbers: parseFloat is a builtin treated
as a codec, so the environment carries its numeric result. -/
structure AreaBox where
  w : ℚ
  h : ℚ
  x : ℚ
  y : ℚ
deriving DecidableEq, Repr

/-- The nested rdf:Description shape of an mwg-rs region. -/
structure RdfDesc where
  mwgName : Option String
  mwgType : Option String
  mwgArea : Option AreaBox
deriving Repr

/-- One entry of the mwg-rs RegionList, carrying both possible schema
shapes (the source probes the nested shape first, then the flat one). -/
structure RegionRoot where
  rdfDescription : Option RdfDesc
  flatName : Option String
  flatType : Option String
  flatArea : Option AreaBox
deriving Repr

/-- The structured exifr.parse output, by logical section. -/
structure ExifData where
  dc_subject : Option (List String)
  ifd0 : Option Ifd0
  exif : Option ExifSec
  gps : Option GpsSec
  xmp_Rating : Option Int
  regions : Option (List RegionRoot)
deriving Repr

/-- Replace the first colon of a string with a dash (one .replace of the
source). -/
def replaceFirstColon (s : String) : String :=
  match s.splitOn ":" with
  | [] => s
  | [x] => x
  | x :: rest => x ++ "-" ++ String.intercalate ":" rest

/-- replaceAll of colons with dashes. -/
def replaceAllColons (s : String) : String :=
  String.intercalate "-" (s.splitOn ":")

/-- The offset-or-UTC default of timestampToMS: offset ? offset : +00:00
(an empty-string offset is falsy). -/
def offsetOrUTC (o : Option String) : String :=
  if jsTruthyStr o then o.getD "" else "+00:00"

/-- timestampToMS of the source (lines 199-202): replace the first two
colons of the timestamp with dashes, append the offset (defaulting to
+00:00), and Date.parse the result. Throws (TypeError) when the timestamp
is undefined, since undefined has no replace method; the error value
records that. -/
def timestampToMS (dp : String → Option Int) (ts : Option String)
    (offset : Option String) : Except Unit (Option Int) :=
  match ts with
  | none => .error ()
  | some t =>
    .ok (dp (replaceFirstColon (replaceFirstColon t) ++ offsetOrUTC offset))

/-- Math.trunc of a nonnegative rational. -/
def qTruncNN (q : ℚ) : Int := ⌊q⌋

/-- JS % on nonnegative operands: q - 60 * floor (q / 60) for divisor
60. -/
def qMod60 (q : ℚ) : ℚ := q - 60 * (⌊q / 60⌋ : ℤ)

/-- Decimal string of a rational as JS would coerce it when integral;
non-integral values only ever flow into the abstract Date.parse, so their
exact JS float formatting is irrelevant and an exact num/den rendering is
used. -/
def qToStr (q : ℚ) : String :=
  if q.den = 1 then toString q.num
  else toString q.num ++ "/" ++ toString q.den

/-- The slice(-2) zero-padding of the source: last two characters of the
string 0 ++ s. -/
def zeroPad2 (s : String) : String :=
  let t := "0" ++ s
  t.drop (t.length - 2)

/-- getTimeOffsetByGPSStamp (source lines 204-223): derive a UTC offset by
comparing the given local timestamp to the GPS-stamped UTC timestamp;
accept only offsets within -12h..+14h; a NaN on either parse fails the
range check. -/
def getTimeOffsetByGPSStamp (dp : String → Option Int) (ts : Option String)
    (gps : Option GpsSec) : Option String :=
  match gps with
  | none => none
  | some g =>
    if jsTruthyStr g.GPSDateStamp && g.GPSTimeStamp.isSome then
      let gpsTimestamp :=
        replaceAllColons (g.GPSDateStamp.getD "") ++
        String.intercalate ":" (g.GPSTimeStamp.getD []) ++ "+00:00"
      match (match ts with | some t => dp t | none => none), dp gpsTimestamp with
      | some t, some gt =>
        let om : ℚ := ((t : ℚ) - (gt : ℚ)) / 1000 / 60
        if -720 ≤ om ∧ om ≤ 840 then
          some ((if om < 0 then "-" else "+") ++
            zeroPad2 (toString (qTruncNN (|om| / 60))) ++ ":" ++
            zeroPad2 (qToStr (qMod60 |om|)))
        else none
      | _, _ => none
    else none

/-- Local state of the exif try block: the record under mutation plus the
orientation local variable (initialised to 1 before exifr.parse). -/
structure EState where
  m : PhotoMeta
  orientation : Int
deriving Repr

/-- Append each new keyword not already present (indexOf === -1 push of the
source); a previously undefined list starts empty. -/
def mergeKeywords (cur : Option (List String)) (new : List String) :
    List String :=
  new.foldl (fun acc kw => if acc.contains kw then acc else acc ++ [kw])
    (cur.getD [])

/-- dc section (source lines 290-302): union dc.subject into the keyword
list when the subject array is truthy and nonempty. A single-string
subject is wrapped into a one-element array by the source, so the
environment carries the array form. -/
def dcStep (e : ExifData) (s : EState) : EState :=
  match e.dc_subject with
  | some subj =>
    if subj.length > 0 then
      { s with m := { s.m with keywords := some (mergeKeywords s.m.keywords subj) } }
    else s
  | none => s

/-- ifd0 section (source lines 305-327): dimension tags fill a still
nonpositive size, a truthy Orientation tag replaces the orientation local.
Make and Model only touch omitted cameraData. -/
def ifd0Step (e : ExifData) (s : EState) : EState :=
  match e.ifd0 with
  | none => s
  | some f =>
    let m1 := match f.ImageWidth with
      | some w =>
        if w ≠ 0 ∧ s.m.size.width ≤ 0 then
          { s.m with size := { s.m.size with width := w } }
        else s.m
      | none => s.m
    let m2 := match f.ImageHeight with
      | some h =>
        if h ≠ 0 ∧ m1.size.height ≤ 0 then
          { m1 with size := { m1.size with height := h } }
        else m1
      | none => m1
    let ori := match f.Orientation with
      | some o => if o ≠ 0 then o else s.orientation
      | none => s.orientation
    { m := m2, orientation := ori }

/-- The creation-timestamp resolution of the exif section (source lines
331-361). Returns none when no branch fires, some of the new
creationDate and creationDateOffset otherwise; an error is the TypeError
thrown when timestampToMS receives an undefined timestamp. Note the
source passes DateTimeOriginal, not CreateDate, to timestampToMS in the
fallback sub-case of the CreateDate branch (line 348), and
DateTimeOriginal is necessarily falsy in that branch. -/
def resolveTimestamp (dp : String → Option Int) (e : ExifData)
    (x : ExifSec) : Except Unit (Option (Option Int × Option String)) :=
  if jsTruthyStr x.DateTimeOriginal then
    if jsTruthyStr x.OffsetTimeOriginal then do
      let cd ← timestampToMS dp x.DateTimeOriginal x.OffsetTimeOriginal
      pure (some (cd, x.OffsetTimeOriginal))
    else do
      let alt := jsOrStr x.OffsetTimeDigitized (jsOrStr x.OffsetTime
        (getTimeOffsetByGPSStamp dp x.DateTimeOriginal e.gps))
      let cd ← timestampToMS dp x.DateTimeOriginal alt
      pure (some (cd, alt))
  else if jsTruthyStr x.CreateDate then
    if jsTruthyStr x.OffsetTimeDigitized then do
      let cd ← timestampToMS dp x.CreateDate x.OffsetTimeDigitized
      pure (some (cd, x.OffsetTimeDigitized))
    else do
      let alt := jsOrStr x.OffsetTimeOriginal (jsOrStr x.OffsetTime
        (getTimeOffsetByGPSStamp dp x.DateTimeOriginal e.gps))
      let cd ← timestampToMS dp x.DateTimeOriginal alt
      pure (some (cd, alt))
  else
    match e.ifd0 with
    | some f =>
      if jsTruthyStr f.ModifyDate then
        if jsTruthyStr x.OffsetTime then do
          let cd ← timestampToMS dp f.ModifyDate x.OffsetTime
          pure (some (cd, x.OffsetTime))
        else do
          let alt := jsOrStr x.DateTimeOriginal (jsOrStr x.OffsetTimeDigitized
            (getTimeOffsetByGPSStamp dp f.ModifyDate e.gps))
          let cd ← timestampToMS dp f.ModifyDate alt
          pure (some (cd, alt))
      else pure none
    | none => pure none

/-- exif section (source lines 330-394): timestamp resolution, then the
exif dimension tags. A throw inside the timestamp resolution happens while
evaluating the right-hand side of the assignment, so the record is
unchanged at the catch. -/
def exifSectionStep (dp : String → Option Int) (e : ExifData) (s : EState) :
    Except PhotoMeta EState :=
  match e.exif with
  | none => .ok s
  | some x =>
    match resolveTimestamp dp e x with
    | .error _ => .error s.m
    | .ok res =>
      let m1 := match res with
        | some (cd, off) =>
          { s.m with creationDate := cd, creationDateOffset := off }
        | none => s.m
      let m2 := match x.ExifImageWidth with
        | some w =>
          if w ≠ 0 ∧ m1.size.width ≤ 0 then
            { m1 with size := { m1.size with width := w } }
          else m1
        | none => m1
      let m3 := match x.ExifImageHeight with
        | some h =>
          if h ≠ 0 ∧ m2.size.height ≤ 0 then
            { m2 with size := { m2.size with height := h } }
          else m2
        | none => m2
      .ok { s with m := m3 }

/-- The size fixing block (source lines 424-433): when either dimension is
still nonpositive, take the external probe result verbatim; when the probe
throws, floor each dimension at 1. -/
def sizeFixStep (probe : Option MSize) (s : EState) : EState :=
  if s.m.size.width ≤ 0 ∨ s.m.size.height ≤ 0 then
    match probe with
    | some info => { s with m := { s.m with size := info } }
    | none =>
      { s with m := { s.m with size :=
          ⟨max s.m.size.width 1, max s.m.size.height 1⟩ } }
  else s

/-- The sideways swap (source lines 437-443): orientation codes above 4
swap width and height. -/
def orientationSwapStep (s : EState) : EState :=
  if 4 < s.orientation then
    { s with m := { s.m with size := ⟨s.m.size.height, s.m.size.width⟩ } }
  else s

/-- xmp section (source lines 449-454): a truthy embedded Rating is stored,
then clamped below at 0. There is no upper clamp. -/
def xmpStep (e : ExifData) (s : EState) : EState :=
  match e.xmp_Rating with
  | some r =>
    if r ≠ 0 then
      { s with m := { s.m with rating := some (if r < 0 then 0 else r) } }
    else s
  | none => s

/-- createFaceBox (source lines 466-500): on a sideways orientation swap
the axes of the ratio box, derive the mirroring flags from the orientation
table, then convert ratios to a center-anchored pixel box. -/
def createFaceBox (orientation : Int) (size : MSize) (a : AreaBox) :
    FaceBox :=
  let b := if 4 < orientation then AreaBox.mk a.h a.w a.y a.x else a
  let swapX : ℚ :=
    if orientation = 2 ∨ orientation = 6 ∨ orientation = 3 ∨ orientation = 7
    then 1 else 0
  let swapY : ℚ :=
    if orientation = 3 ∨ orientation = 7 ∨ orientation = 4 ∨ orientation = 8
    then 1 else 0
  { width := jsRound (b.w * (size.width : ℚ)),
    height := jsRound (b.h * (size.height : ℚ)),
    left := jsRound (|b.x - swapX| * (size.width : ℚ)),
    top := jsRound (|b.y - swapY| * (size.height : ℚ)) }

/-- The center-to-corner shift applied after createFaceBox (source lines
542-543), clamping at 0. -/
def cornerizeBox (b : FaceBox) : FaceBox :=
  { b with
    left := jsRound (max 0 ((b.left : ℚ) - (b.width : ℚ) / 2)),
    top := jsRound (max 0 ((b.top : ℚ) - (b.height : ℚ) / 2)) }

/-- One RegionList entry (source lines 462-547): probe the nested
Lightroom shape, then the flat exiftool shape; entries whose type is not
Face or whose name is falsy are skipped; accepted boxes are converted and
corner-anchored. -/
def processRegion (orientation : Int) (size : MSize) (r : RegionRoot) :
    Option Face :=
  let flatMatch : Option (Option String × Option String × AreaBox) :=
    if jsTruthyStr r.flatName && jsTruthyStr r.flatType then
      match r.flatArea with
      | some a => some (r.flatName, r.flatType, a)
      | none => none
    else none
  let matched : Option (Option String × Option String × AreaBox) :=
    match r.rdfDescription with
    | some desc =>
      match desc.mwgArea with
      | some a => some (desc.mwgName, desc.mwgType, a)
      | none => flatMatch
    | none => flatMatch
  match matched with
  | some (nm, tp, a) =>
    if tp == some "Face" && jsTruthyStr nm then
      some ⟨nm.getD "", cornerizeBox (createFaceBox orientation size a)⟩
    else none
  | none => none

/-- The mwg-rs section (source lines 456-561): collect accepted faces; when
any were found store them and, under the keywordsToPersons flag, remove
each face name from the keyword list. The removal calls indexOf on the
keyword list, which throws when the list is undefined; the faces were
already stored at that point. -/
def facesStep (facesEnabled keywordsToPersons : Bool) (e : ExifData)
    (s : EState) : Except PhotoMeta EState :=
  if facesEnabled then
    match e.regions with
    | some regionList =>
      let faces := regionList.filterMap (processRegion s.orientation s.m.size)
      if faces.length > 0 then
        let m1 := { s.m with faces := some faces }
        if keywordsToPersons then
          match m1.keywords with
          | none => .error m1
          | some ks =>
            let ks2 := faces.foldl (fun acc f => acc.erase f.name) ks
            .ok { s with m := { m1 with keywords := some ks2 } }
        else .ok { s with m := m1 }
      else .ok s
    | none => .ok s
  else .ok s

/-- The exif try block (source lines 284-564): when exifr.parse threw or
found nothing, the first section access throws and the record is
unchanged; otherwise the sections run in order, any throw keeping the
mutations made so far. -/
def exifBlock (dp : String → Option Int)
    (facesEnabled keywordsToPersons : Bool) (probe : Option MSize)
    (exifData : Option ExifData) (m0 : PhotoMeta) : PhotoMeta :=
  match exifData with
  | none => m0
  | some e =>
    let s1 := ifd0Step e (dcStep e ⟨m0, 1⟩)
    match exifSectionStep dp e s1 with
    | .error m => m
    | .ok s2 =>
      let s3 := orientationSwapStep (sizeFixStep probe s2)
      let s4 := xmpStep e s3
      match facesStep facesEnabled keywordsToPersons e s4 with
      | .error m => m
      | .ok s5 => s5.m

/-- Source lines 566-569: a falsy creationDate (0 or NaN) is coerced to
0. -/
def creationDateFix (m : PhotoMeta) : PhotoMeta :=
  if jsTruthyInt m.creationDate then m else { m with creationDate := some 0 }

/-- The parse outcome of one existing sidecar candidate: the structure of
the SideCar interface (dc.subject and xmp.Rating, each possibly absent),
undefined, or a throwing parse, which aborts the remaining candidates. -/
structure SideCar where
  dc_subject : Option (List String)
  xmp_Rating : Option Int
deriving Repr

/-- Outcome of exifr.sidecar for one existing candidate path. -/
inductive SidecarItem
  | parsed (d : Option SideCar)
  | raises
deriving Repr

/-- Merge one parsed sidecar (source lines 585-599): union the subject list
into the keywords with exact-match dedup; a declared Rating (strict
undefined check, so 0 counts as declared) overwrites the rating with no
clamping. -/
def applySidecar (m : PhotoMeta) (d : SideCar) : PhotoMeta :=
  let m1 := match d.dc_subject with
    | some subj => { m with keywords := some (mergeKeywords m.keywords subj) }
    | none => m
  match d.xmp_Rating with
  | some r => { m1 with rating := some r }
  | none => m1

/-- The sidecar loop (source lines 571-605): existing candidates in path
order; a throwing parse is caught by the enclosing try, skipping the
remaining candidates. -/
def sidecarStep : PhotoMeta → List SidecarItem → PhotoMeta
  | m, [] => m
  | m, .raises :: _ => m
  | m, .parsed none :: rest => sidecarStep m rest
  | m, .parsed (some d) :: rest => sidecarStep (applySidecar m d) rest

/-- Environment of one loadPhotoMetadata call: the outcome of every
external call it makes, in source order. -/
structure PhotoEnv where
  readFails : Bool
  statResult : Option (Int × Int)
  iptc : Option IptcData
  exifData : Option ExifData
  probe : Option MSize
  sidecars : List SidecarItem
  facesEnabled : Bool
  keywordsToPersons : Bool
deriving Repr

/-- The record as initialised at the top of loadPhotoMetadata (source
lines 179-183): zero size, zero timestamps, no optional fields. -/
def initialPhotoMeta : PhotoMeta :=
  { size := ⟨0, 0⟩, fileSize := 0, creationDate := some 0,
    creationDateOffset := none, keywords := none, rating := none,
    faces := none }

/-- The statSync section (source lines 239-244): fills fileSize and the
mtime; a stat failure is ignored. -/
def statStep (statResult : Option (Int × Int)) (m : PhotoMeta) :
    PhotoMeta :=
  match statResult with
  | some (sz, mt) => { m with fileSize := sz, creationDate := some mt }
  | none => m

/-- MetadataLoader.loadPhotoMetadata (source lines 177-618): a failing
header read returns EMPTY_METADATA; otherwise stat, the IPTC section, the
exif block, the falsy-creationDate fix and the sidecar merge run in order,
each failure degrading only its own section. -/
def loadPhotoMetadata (dp : String → Option Int) (env : PhotoEnv) :
    PhotoMeta :=
  if env.readFails then EMPTY_METADATA
  else
    sidecarStep
      (creationDateFix
        (exifBlock dp env.facesEnabled env.keywordsToPersons env.probe
          env.exifData
          (iptcStep env.iptc (statStep env.statResult initialPhotoMeta))))
      env.sidecars

/-! ## MetadataLoader.loadVideoMetadata
(src/backend/model/fileaccess/MetadataLoader.ts, lines 26-168)

The ffprobe result is an input; numeric tag strings appear post-parse
(parseInt / parseFloat are builtins), undefined parses as none. The size
fields are possibly-undefined JS numbers, because the source copies
stream.height without any check. -/

/-- isInt32 of Utils: a 32-bit signed integer. -/
def isInt32 (v : Int) : Bool := -2147483648 ≤ v ∧ v < 2147483648

/-- isInt32 on a possibly-NaN parse result. -/
def isInt32Opt : Option Int → Bool
  | some v => isInt32 v
  | none => false

/-- The tags object of a stream or of the container format. -/
structure VTags where
  creation_time : Option String
deriving Repr

/-- One ffprobe stream, restricted to the fields the source reads. The
numeric fields carry the result of the parseInt / parseFloat coercions of
the source; tags is the raw object, whose absence makes the creation_time
access throw. -/
structure VStream where
  width : Option Int
  height : Option Int
  rotation : Option Int
  durationParsed : Option ℚ
  bit_rate : Option Int
  avg_frame_rate : Option Int
  tags : Option VTags
deriving Repr

/-- The container format section. -/
structure VFormat where
  duration : Option ℚ
  bit_rate : Option Int
  tags : Option VTags
deriving Repr

/-- The ffprobe result. -/
structure FfprobeData where
  streams : List VStream
  format : VFormat
deriving Repr

/-- The video metadata record. Width and height are possibly-undefined JS
numbers (the source assigns stream.height unchecked); bitRate and fps can
be set to null by the || null of the source. -/
structure VideoMeta where
  width : Option Int
  height : Option Int
  bitRate : Option Int
  duration : Int
  creationDate : Int
  fileSize : Int
  fps : Option Int
  keywords : Option (List String)
  rating : Option Int
deriving DecidableEq, Repr

/-- Date.parse of a possibly-undefined tag value under the abstract
parser; an undefined value parses as NaN. -/
def dpOpt (dp : String → Option Int) : Option String → Option Int
  | some s => dp s
  | none => none

/-- The first-matching-stream body of the loop (source lines 56-89): size,
the sideways-rotation swap, stream duration, bit rate, fps, then the
stream creation_time tag. Accessing tags.creation_time throws when tags is
undefined, aborting the rest of the inner try with the mutations made so
far. The rotation guard abs(r)/90 % 2 === 1 holds exactly when abs(r) mod
180 = 90. -/
def processStream (dp : String → Option Int) (m : VideoMeta)
    (st : VStream) : Except VideoMeta VideoMeta :=
  let m1 := { m with width := st.width, height := st.height }
  let m2 :=
    if isInt32Opt st.rotation ∧ (st.rotation.getD 0).natAbs % 180 = 90 then
      { m1 with width := st.height, height := st.width }
    else m1
  let m3 := match st.durationParsed with
    | some d => if isInt32 ⌊d * 1000⌋ then { m2 with duration := ⌊d * 1000⌋ } else m2
    | none => m2
  let m4 := match st.bit_rate with
    | some b => if isInt32 b then
        { m3 with bitRate := if b ≠ 0 then some b else none }
      else m3
    | none => m3
  let m5 := match st.avg_frame_rate with
    | some f => if isInt32 f then
        { m4 with fps := if f ≠ 0 then some f else none }
      else m4
    | none => m4
  match st.tags with
  | none => .error m5
  | some tg =>
    .ok { m5 with creationDate := jsOrNum (dpOpt dp tg.creation_time) m5.creationDate }

/-- The container-format section (source lines 96-119): duration only when
the stream duration stayed 0, bit rate preferred from the container,
creation_time parsed when present as a string, overriding the previous
value only through the || chain. -/
def formatStep (dp : String → Option Int) (f : VFormat) (m : VideoMeta) :
    VideoMeta :=
  let m1 := match f.duration with
    | some d =>
      if m.duration = 0 ∧ isInt32 ⌊d * 1000⌋ then
        { m with duration := ⌊d * 1000⌋ }
      else m
    | none => m
  let m2 := match f.bit_rate with
    | some b => if isInt32 b then { m1 with bitRate := some b } else m1
    | none => m1
  match f.tags with
  | some tg =>
    match tg.creation_time with
    | some ct => { m2 with creationDate := jsOrNum (dp ct) m2.creationDate }
    | none => m2
  | none => m2

/-- The sidecar loop of the video path (source lines 128-161), identical in
structure to the photo one. -/
def sidecarStepV : VideoMeta → List SidecarItem → VideoMeta
  | m, [] => m
  | m, .raises :: _ => m
  | m, .parsed none :: rest => sidecarStepV m rest
  | m, .parsed (some d) :: rest =>
    let m1 := match d.dc_subject with
      | some subj => { m with keywords := some (mergeKeywords m.keywords subj) }
      | none => m
    let m2 := match d.xmp_Rating with
      | some r => { m1 with rating := some r }
      | none => m1
    sidecarStepV m2 rest

/-- Environment of one loadVideoMetadata call. -/
structure VideoEnv where
  statResult : Option (Int × Int)
  probe : Option FfprobeData
  sidecars : List SidecarItem
deriving Repr

/-- MetadataLoader.loadVideoMetadata (source lines 26-168): defaults of 1x1
size and zeroed numbers; stat fills fileSize and mtime; a failing ffprobe
aborts the outer try, skipping the sidecar merge; otherwise the first
stream with a truthy width is processed, then the format section, then the
falsy coercion of creationDate, then the sidecars. -/
def loadVideoMetadata (dp : String → Option Int) (env : VideoEnv) :
    VideoMeta :=
  let m0 : VideoMeta :=
    { width := some 1, height := some 1, bitRate := some 0, duration := 0,
      creationDate := 0, fileSize := 0, fps := some 0, keywords := none,
      rating := none }
  let m1 := match env.statResult with
    | some (sz, mt) => { m0 with fileSize := sz, creationDate := mt }
    | none => m0
  match env.probe with
  | none => m1
  | some data =>
    let m2 := match data.streams.find? (fun st => jsTruthyInt st.width) with
      | some st =>
        match processStream dp m1 st with
        | .ok m => formatStep dp data.format m
        | .error m => m
      | none => formatStep dp data.format m1
    let m3 := { m2 with creationDate := jsOrNum (some m2.creationDate) 0 }
    sidecarStepV m3 env.sidecars

/-! ## Concrete inputs used by the theorems below -/

/-- A date parser that fails on every string (every Date.parse gives NaN);
claims that hold for every parser are exercised with it. -/
def dpNone : String → Option Int := fun _ => none

/-- An environment whose header read fails. -/
def envReadFail : PhotoEnv :=
  { readFails := true, statResult := some (10, 99), iptc := none,
    exifData := none, probe := some ⟨33, 44⟩, sidecars := [],
    facesEnabled := false, keywordsToPersons := false }

/-- A video environment where ffprobe fails, leaving the defaults. -/
def vEnvProbeFail : VideoEnv :=
  { statResult := none, probe := none, sidecars := [] }

/-- A photo whose EXIF carries CreateDate but neither DateTimeOriginal nor
OffsetTimeDigitized: the failing input of the CreateDate fallback
sub-case. -/
def envCreateDateOnly : PhotoEnv :=
  { readFails := false, statResult := some (100, 777), iptc := none,
    exifData := some
      { dc_subject := none, ifd0 := none,
        exif := some
          { DateTimeOriginal := none,
            CreateDate := some "2020:01:02 03:04:05",
            OffsetTimeOriginal := none, OffsetTimeDigitized := none,
            OffsetTime := none, ExifImageWidth := none,
            ExifImageHeight := none },
        gps := none, xmp_Rating := none, regions := none },
    probe := some ⟨123, 456⟩, sidecars := [], facesEnabled := false,
    keywordsToPersons := false }

/-- A photo with embedded xmp rating 3 and one sidecar declaring rating
5. -/
def envRating3Side5 : PhotoEnv :=
  { readFails := false, statResult := none, iptc := none,
    exifData := some
      { dc_subject := none, ifd0 := none, exif := none, gps := none,
        xmp_Rating := some 3, regions := none },
    probe := none, sidecars := [SidecarItem.parsed (some ⟨none, some 5⟩)],
    facesEnabled := false, keywordsToPersons := false }

/-- A photo with embedded xmp rating 3 and one sidecar declaring rating
7. -/
def envRating3Side7 : PhotoEnv :=
  { readFails := false, statResult := none, iptc := none,
    exifData := some
      { dc_subject := none, ifd0 := none, exif := none, gps := none,
        xmp_Rating := some 3, regions := none },
    probe := none, sidecars := [SidecarItem.parsed (some ⟨none, some 7⟩)],
    facesEnabled := false, keywordsToPersons := false }

/-- A family of photos with only an embedded rating and an optional list
of sidecars. -/
def envEmbRating (r : Int) (sc : List SidecarItem) : PhotoEnv :=
  { readFails := false, statResult := none, iptc := none,
    exifData := some
      { dc_subject := none, ifd0 := none, exif := none, gps := none,
        xmp_Rating := some r, regions := none },
    probe := none, sidecars := sc, facesEnabled := false,
    keywordsToPersons := false }

/-- A photo whose IPTC keyword array carries an exact duplicate. -/
def envIptcDupKeywords : PhotoEnv :=
  { readFails := false, statResult := none,
    iptc := some { keywords := some ["a", "a"], date_time := none },
    exifData := none, probe := none, sidecars := [], facesEnabled := false,
    keywordsToPersons := false }

/-- The face-box example of the spec: ratio box w 0.2, h 0.1, x 0.5,
y 0.5. -/
def exampleArea : AreaBox := ⟨1 / 5, 1 / 10, 1 / 2, 1 / 2⟩

/-- A 1000x800 photo at orientation 1 with one Lightroom-shaped Face
region using the example ratio box. -/
def envFaceExample : PhotoEnv :=
  { readFails := false, statResult := none, iptc := none,
    exifData := some
      { dc_subject := none,
        ifd0 := some
          { ImageWidth := some 1000, ImageHeight := some 800,
            Orientation := some 1, ModifyDate := none },
        exif := none, gps := none, xmp_Rating := none,
        regions := some
          [{ rdfDescription := some
               { mwgName := some "Alice", mwgType := some "Face",
                 mwgArea := some exampleArea },
             flatName := none, flatType := none, flatArea := none }] },
    probe := none, sidecars := [], facesEnabled := true,
    keywordsToPersons := false }

/-- A date parser for the video example: the stream tag parses to 1000,
the format tag to 2000. -/
def dpStreamFormat : String → Option Int := fun s =>
  if s = "S" then some 1000 else if s = "F" then some 2000 else none

/-- A family of videos with one sized stream carrying an optional
creation_time tag, a format section carrying another, and a given file
mtime. -/
def envVideoTimes (sct fct : Option String) (mt : Int) : VideoEnv :=
  { statResult := some (10, mt),
    probe := some
      { streams := [{ width := some 100, height := some 50, rotation := none,
                      durationParsed := none, bit_rate := none,
                      avg_frame_rate := none, tags := some ⟨sct⟩ }],
        format := { duration := none, bit_rate := none, tags := some ⟨fct⟩ } },
    sidecars := [] }

/-- Scanned state of the one-photo-deleted scenario: one surviving photo
named a. -/
def scanOneLeft : List DbPhoto :=
  [⟨"a", ⟨none, none, none, some ⟨0, 7⟩⟩⟩]

/-- Persisted state of the one-photo-deleted scenario: the DB row of photo
a (same payloads, fresh allocation ids, as any DB load produces) plus the
row of the deleted photo b. -/
def dbOneDeleted : List DbPhoto :=
  [⟨"a", ⟨none, none, none, some ⟨1, 7⟩⟩⟩, ⟨"b", ⟨none, none, none, some ⟨2, 9⟩⟩⟩]

/-- A persisted row is a fresh copy of a scanned photo: same name, and the
loose changed-check fires between them (which holds for every photo whose
size sub-object exists on both sides, references being distinct across a
DB load). -/
def freshCopyOf (dbp sp : DbPhoto) : Prop :=
  dbp.name = sp.name ∧ metaDiffers dbp.metadata sp.metadata = true

/-- No candidate of the list has a throwing parse. -/
def noRaisesB (l : List SidecarItem) : Bool :=
  l.all fun it => match it with
    | .raises => false
    | _ => true

/-- The ratings declared by the parsed candidates of the list, in order. -/
def declaredRatings (l : List SidecarItem) : List Int :=
  l.filterMap fun it => match it with
    | .parsed (some d) => d.xmp_Rating
    | _ => none

/-- The keyword invariant: whenever the keyword list exists, it has no
duplicate exact strings. -/
def KwInv (m : PhotoMeta) : Prop := ∀ l, m.keywords = some l → l.Nodup

/-- A photo mixing keyword sources: IPTC keywords a and b, dc.subject b
and c, a sidecar subject list with a and d. -/
def envKwMix : PhotoEnv :=
  { readFails := false, statResult := none,
    iptc := some { keywords := some ["a", "b"], date_time := none },
    exifData := some
      { dc_subject := some ["b", "c"], ifd0 := none, exif := none,
        gps := none, xmp_Rating := none, regions := none },
    probe := none,
    sidecars := [SidecarItem.parsed (some ⟨some ["a", "d"], none⟩)],
    facesEnabled := false, keywordsToPersons := false }

/-! ## Theorems: GalleryManager.listDirectory -/

/-- The scanned-branch tail never produces the no-data response. -/
theorem listDirRest_ne_cacheValid (cfg : IndexingConfig)
    (now diskLastModified : Int) (d : DirRecord) :
    listDirRest cfg now diskLastModified d ≠ .cacheValid := by
  unfold listDirRest
  split <;> simp

/-- C2: with a persisted scanned record whose signature matches (disk
lastModified equals the caller hint, persisted lastScanned equals the
caller hint, both hints truthy), sensitivity low returns the no-data
cache-valid response, and sensitivity medium does too when now minus
lastScanned is at most the configured timeout. -/
theorem listDirectory_cache_valid_on_signature_match
    (cfg : IndexingConfig) (now : Int) (d : DirRecord) (m s : Int)
    (hm : m ≠ 0) (hs : s ≠ 0) (hscanned : d.scanned = true)
    (hls : d.lastScanned = s) :
    (cfg.reIndexingSensitivity = .low →
      listDirectory cfg now m (some d) (some m) (some s) = .cacheValid) ∧
    (cfg.reIndexingSensitivity = .medium →
      now - s ≤ cfg.cachedFolderTimeout →
      listDirectory cfg now m (some d) (some m) (some s) = .cacheValid) := by
  constructor
  · intro hlow
    simp [listDirectory, jsTruthyInt, hm, hs, hscanned, hls, hlow]
  · intro hmed hage
    simp [listDirectory, jsTruthyInt, hm, hs, hscanned, hls, hmed, hage]

/-- C2 witness: a concrete cache hit at sensitivity low. -/
theorem listDirectory_cache_valid_on_signature_match_witness :
    listDirectory ⟨.low, 10⟩ 5 3 (some ⟨true, 3, 4⟩) (some 3) (some 4) =
      .cacheValid :=
  (listDirectory_cache_valid_on_signature_match ⟨.low, 10⟩ 5 ⟨true, 3, 4⟩ 3 4
    (by decide) (by decide) rfl rfl).1 rfl

/-- C10: when either caller hint is falsy (0 or omitted), the no-data
response is never produced, whatever the persisted record holds. -/
theorem listDirectory_no_cache_valid_without_hints
    (cfg : IndexingConfig) (now diskLastModified : Int)
    (dir : Option DirRecord) (klm kls : Option Int)
    (h : jsTruthyInt klm = false ∨ jsTruthyInt kls = false) :
    listDirectory cfg now diskLastModified dir klm kls ≠ .cacheValid := by
  unfold listDirectory
  match dir with
  | none => simp
  | some d =>
    have hrest := listDirRest_ne_cacheValid cfg now diskLastModified d
    rcases h with h | h <;> simp [h] <;> split <;> simp_all

/-- C10 witness: stored values equal the supplied ones, but the supplied
lastModified is 0, so the persisted tree is returned instead of the
no-data response. -/
theorem listDirectory_no_cache_valid_without_hints_witness :
    listDirectory ⟨.low, 10⟩ 5 0 (some ⟨true, 0, 4⟩) (some 0) (some 4) ≠
      .cacheValid :=
  listDirectory_no_cache_valid_without_hints ⟨.low, 10⟩ 5 0
    (some ⟨true, 0, 4⟩) (some 0) (some 4) (Or.inl (by decide))

/-! ## Theorems: GalleryManager.indexDirectory photo reconciliation -/

/-- Loop invariant of the photo diff: when the persisted set is fresh
copies of the scanned photos (position by position) plus one trailing
extra row, the loop leaves exactly the extra row, touches no insert, and
pushes one update per scanned photo. -/
theorem photoLoop_fresh_copies (extra : DbPhoto) :
    ∀ (scanned pre : List DbPhoto) (upd ins : List DbPhoto) (fb : Nat),
    List.Forall₂ freshCopyOf pre scanned →
    (scanned.foldl photoStep ⟨pre ++ [extra], upd, ins, fb⟩).indexed = [extra] ∧
    (scanned.foldl photoStep ⟨pre ++ [extra], upd, ins, fb⟩).inserts = ins ∧
    (scanned.foldl photoStep ⟨pre ++ [extra], upd, ins, fb⟩).updates.length =
      upd.length + scanned.length := by
  intro scanned pre upd ins fb h
  induction h generalizing upd ins fb with
  | nil => simp
  | cons hr hrest ih =>
    rename_i p sp pre0 sc0
    have hname : p.name = sp.name := hr.1
    have hdiff : metaDiffers p.metadata sp.metadata = true := hr.2
    have hstep : photoStep ⟨(p :: pre0) ++ [extra], upd, ins, fb⟩ sp =
        ⟨pre0 ++ [extra], upd ++ [{ p with metadata := sp.metadata }], ins, fb⟩ := by
      simp [photoStep, extractFirst, hname, hdiff]
    simp only [List.foldl_cons, hstep]
    have h3 := ih (upd ++ [{ p with metadata := sp.metadata }]) ins fb
    refine ⟨h3.1, h3.2.1, ?_⟩
    rw [h3.2.2]
    simp [Nat.add_assoc, Nat.add_comm 1]

/-- C4 counterexample: in the one-photo-deleted scenario with every other
entry unchanged on disk (equal payloads, necessarily fresh object
references after the DB load), the loop still writes an update, so the
zero-update part of the claim is false. -/
theorem reconcile_one_deleted_counterexample :
    (reconcilePhotos 100 scanOneLeft dbOneDeleted).removes.length = 1 ∧
    (reconcilePhotos 100 scanOneLeft dbOneDeleted).inserts = [] ∧
    (reconcilePhotos 100 scanOneLeft dbOneDeleted).updates ≠ [] := by
  refine ⟨by decide, by decide, by decide⟩

/-- C4 (amended): reconciling a directory where exactly one
previously-indexed photo was deleted from disk removes exactly that row
and inserts nothing, but writes an update for every surviving photo: the
changed-check compares the four metadata sub-objects with the JS loose
inequality, which is reference inequality for objects, and a persisted row
loaded from the store never shares references with the freshly scanned
record (the size sub-object always exists), so the check fires for every
match. -/
theorem reconcile_one_deleted_effects (fb : Nat)
    (scanned pre : List DbPhoto) (extra : DbPhoto)
    (h : List.Forall₂ freshCopyOf pre scanned) :
    (reconcilePhotos fb scanned (pre ++ [extra])).removes = [extra] ∧
    (reconcilePhotos fb scanned (pre ++ [extra])).inserts = [] ∧
    (reconcilePhotos fb scanned (pre ++ [extra])).updates.length =
      scanned.length := by
  have h3 := photoLoop_fresh_copies extra scanned pre [] [] fb h
  exact ⟨h3.1, h3.2.1, by simpa using h3.2.2⟩

/-- C4 witness: the concrete one-photo-deleted scenario, via the general
theorem. -/
theorem reconcile_one_deleted_effects_witness :
    (reconcilePhotos 100 scanOneLeft
      ([⟨"a", ⟨none, none, none, some ⟨1, 7⟩⟩⟩] ++
        [⟨"b", ⟨none, none, none, some ⟨2, 9⟩⟩⟩])).removes =
      [⟨"b", ⟨none, none, none, some ⟨2, 9⟩⟩⟩] :=
  (reconcile_one_deleted_effects 100 scanOneLeft
    [⟨"a", ⟨none, none, none, some ⟨1, 7⟩⟩⟩]
    ⟨"b", ⟨none, none, none, some ⟨2, 9⟩⟩⟩
    (List.Forall₂.cons ⟨rfl, by decide⟩ List.Forall₂.nil)).1

/-! ## Theorems: MetadataLoader -/

/-- C1 counterexample: on total header-read failure the photo record has
width 0, so the width and height of an extracted record are not always at
least 1. -/
theorem sentinel_size_counterexample :
    ¬ (1 ≤ (loadPhotoMetadata dpNone envReadFail).size.width) := by decide

/-- C1 (amended): on total header-read failure loadPhotoMetadata returns
the sentinel record EMPTY_METADATA, whose size is 0x0 rather than 1x1 (so
the at-least-1x1 guarantee fails on that path); the loadVideoMetadata
defaults, kept when ffprobe fails, are 1x1. -/
theorem sentinel_on_read_failure (dp : String → Option Int)
    (env : PhotoEnv) (h : env.readFails = true) :
    loadPhotoMetadata dp env = EMPTY_METADATA ∧
    EMPTY_METADATA.size = ⟨0, 0⟩ ∧
    (loadVideoMetadata dpNone vEnvProbeFail).width = some 1 ∧
    (loadVideoMetadata dpNone vEnvProbeFail).height = some 1 := by
  refine ⟨?_, rfl, rfl, rfl⟩
  simp [loadPhotoMetadata, h]

/-- C1 witness: a concrete failing read returns the sentinel. -/
theorem sentinel_on_read_failure_witness :
    loadPhotoMetadata dpNone envReadFail = EMPTY_METADATA :=
  (sentinel_on_read_failure dpNone envReadFail rfl).1

/-- C3: on a photo whose EXIF has CreateDate but neither DateTimeOriginal
nor OffsetTimeDigitized, the fallback sub-case passes the undefined
DateTimeOriginal to timestampToMS, which throws; the whole EXIF block is
aborted (even the size probe never lands, leaving 0x0) and creationDate
stays the file mtime, for every date parser — so CreateDate is never the
timestamp string used there, contradicting the claim and the comments of
the source. -/
theorem createDate_fallback_throws (dp : String → Option Int) :
    loadPhotoMetadata dp envCreateDateOnly =
      { size := ⟨0, 0⟩, fileSize := 100, creationDate := some 777,
        creationDateOffset := none, keywords := none, rating := none,
        faces := none } := rfl

/-- C6 counterexample: when the stream creation_time tag parses to 1000
and the container-format tag parses to 2000, the final creationDate is the
format value, not the stream value the claim requires. -/
theorem video_creation_time_counterexample :
    (loadVideoMetadata dpStreamFormat
      (envVideoTimes (some "S") (some "F") 500)).creationDate = 2000 ∧
    (2000 : Int) ≠ 1000 := ⟨rfl, by decide⟩

/-- jsOrNum against 0 is the identity. -/
theorem jsOrNum_some_zero (x : Int) : jsOrNum (some x) 0 = x := by
  by_cases hx : x = 0 <;> simp [jsOrNum, hx]

/-- jsOrNum of a NaN takes the fallback. -/
theorem jsOrNum_none (b : Int) : jsOrNum none b = b := rfl

/-- C6 (amended): the creation time resolution order is mtime, overridden
by the stream tag when it parses truthily, overridden in turn by the
container-format tag when it parses truthily — the format tag has the last
word, each source falling back to the previous one only when its own parse
fails. -/
theorem video_creation_time_precedence (dp : String → Option Int)
    (sct fct : Option String) (mt : Int) :
    (loadVideoMetadata dp (envVideoTimes sct fct mt)).creationDate =
      jsOrNum (dpOpt dp fct) (jsOrNum (dpOpt dp sct) mt) := by
  cases fct <;>
    simp [loadVideoMetadata, envVideoTimes, processStream, formatStep,
      sidecarStepV, jsTruthyInt, dpOpt, jsOrNum_some_zero, jsOrNum_none]

/-- C7 counterexample: a sidecar rating of 7 lands unclamped in the final
record, outside the claimed range 0..5. -/
theorem rating_range_counterexample :
    (loadPhotoMetadata dpNone envRating3Side7).rating = some 7 ∧
    ¬ ((7 : Int) ≤ 5) := ⟨rfl, by decide⟩

/-- C7 (amended): a truthy embedded xmp rating is clamped below at 0 only
(there is no upper clamp at 5), and a sidecar-declared rating overwrites
it with no clamping at all, so the final rating can lie outside 0..5. -/
theorem rating_clamping_behavior (r s : Int) (hr : r ≠ 0) :
    (loadPhotoMetadata dpNone (envEmbRating r [])).rating =
      some (if r < 0 then 0 else r) ∧
    (loadPhotoMetadata dpNone
      (envEmbRating r [SidecarItem.parsed (some ⟨none, some s⟩)])).rating =
      some s := by
  constructor <;>
    simp [loadPhotoMetadata, envEmbRating, statStep, initialPhotoMeta,
      iptcStep, exifBlock, dcStep, ifd0Step, exifSectionStep, sizeFixStep,
      orientationSwapStep, xmpStep, facesStep, creationDateFix, sidecarStep,
      applySidecar, hr]

/-- C7 witness: embedded rating -2 is clamped to 0; a sidecar rating 9
overwrites unclamped. -/
theorem rating_clamping_behavior_witness :
    (loadPhotoMetadata dpNone (envEmbRating (-2) [])).rating =
      some (if (-2 : Int) < 0 then 0 else -2) ∧
    (loadPhotoMetadata dpNone
      (envEmbRating (-2) [SidecarItem.parsed (some ⟨none, some 9⟩)])).rating =
      some 9 :=
  rating_clamping_behavior (-2) 9 (by decide)

/-- C8 counterexample: an IPTC keyword array with an exact duplicate is
stored verbatim, so the final keyword list can contain duplicate exact
strings. -/
theorem keywords_duplicate_counterexample :
    ¬ ((loadPhotoMetadata dpNone envIptcDupKeywords).keywords.getD []).Nodup := by
  decide

/-- A concrete floor evaluation: jsRound q equals z when z lies under
q + 1/2 and q + 1/2 lies under z + 1. -/
theorem jsRound_eq (q : ℚ) (z : ℤ) (h1 : (z : ℚ) ≤ q + 1 / 2)
    (h2 : q + 1 / 2 < z + 1) : jsRound q = z := by
  unfold jsRound
  exact Int.floor_eq_iff.mpr ⟨h1, h2⟩

/-- Evaluation of createFaceBox on the example region: the center-anchored
pixel box. -/
theorem createFaceBox_example_eval :
    createFaceBox 1 ⟨1000, 800⟩ exampleArea = ⟨200, 80, 500, 400⟩ := by
  unfold createFaceBox exampleArea
  norm_num [FaceBox.mk.injEq]
  refine ⟨?_, ?_, ?_, ?_⟩ <;>
    exact jsRound_eq _ _ (by norm_num [abs_of_nonneg])
      (by norm_num [abs_of_nonneg])

/-- Evaluation of the center-to-corner shift on the example box. -/
theorem cornerizeBox_example_eval :
    cornerizeBox (⟨200, 80, 500, 400⟩ : FaceBox) = ⟨200, 80, 400, 360⟩ := by
  unfold cornerizeBox
  norm_num [FaceBox.mk.injEq]
  constructor <;>
    exact jsRound_eq _ _ (by norm_num [abs_of_nonneg])
      (by norm_num [abs_of_nonneg])

/-- C9 counterexample: for the ratio box of the example on a 1000x800
image at orientation 1, the intermediate center-anchored box of
createFaceBox has left 500 and top 400, not the left 400 and top 360 the
claim states (the claim applied the center-to-corner shift one time too
many). -/
theorem facebox_example_counterexample :
    createFaceBox 1 ⟨1000, 800⟩ exampleArea ≠ ⟨200, 80, 400, 360⟩ := by
  rw [createFaceBox_example_eval]
  decide

/-- C9 (amended): the example region converts to the intermediate
center-anchored pixel box width 200, height 80, left 500, top 400, and the
final corner-anchored box left 400, top 360, width 200, height 80 —
including through the whole photo pipeline. -/
theorem facebox_example_conversion :
    createFaceBox 1 ⟨1000, 800⟩ exampleArea = ⟨200, 80, 500, 400⟩ ∧
    cornerizeBox (createFaceBox 1 ⟨1000, 800⟩ exampleArea) =
      ⟨200, 80, 400, 360⟩ ∧
    (loadPhotoMetadata dpNone envFaceExample).faces =
      some [⟨"Alice", ⟨200, 80, 400, 360⟩⟩] := by
  refine ⟨createFaceBox_example_eval, ?_, ?_⟩
  · rw [createFaceBox_example_eval]
    exact cornerizeBox_example_eval
  · simp [loadPhotoMetadata, envFaceExample, statStep, initialPhotoMeta,
      iptcStep, exifBlock, dcStep, ifd0Step, exifSectionStep, sizeFixStep,
      orientationSwapStep, xmpStep, facesStep, processRegion, jsTruthyStr,
      creationDateFix, sidecarStep, createFaceBox_example_eval,
      cornerizeBox_example_eval]

/-! ## Theorems: sidecar rating precedence (C5) -/

/-- A sidecar that declares no rating leaves the rating alone. -/
theorem applySidecar_rating_none {d : SideCar} (h : d.xmp_Rating = none)
    (m : PhotoMeta) : (applySidecar m d).rating = m.rating := by
  cases hs : d.dc_subject <;> simp [applySidecar, h, hs]

/-- A sidecar that declares a rating installs exactly it. -/
theorem applySidecar_rating_some {d : SideCar} {r : Int}
    (h : d.xmp_Rating = some r) (m : PhotoMeta) :
    (applySidecar m d).rating = some r := by
  cases hs : d.dc_subject <;> simp [applySidecar, h, hs]

/-- A non-throwing sidecar list with no declared ratings leaves the rating
alone. -/
theorem sidecarStep_rating_const :
    ∀ (l : List SidecarItem) (m : PhotoMeta), noRaisesB l = true →
    declaredRatings l = [] → (sidecarStep m l).rating = m.rating := by
  intro l
  induction l with
  | nil => intro m _ _; rfl
  | cons it rest ih =>
    intro m h1 h2
    match it with
    | .raises => simp [noRaisesB] at h1
    | .parsed none =>
      exact ih m (by simpa [noRaisesB] using h1)
        (by simpa [declaredRatings] using h2)
    | .parsed (some d) =>
      have hd : d.xmp_Rating = none := by
        cases hr : d.xmp_Rating with
        | none => rfl
        | some r => simp [declaredRatings, hr] at h2
      have h2r : declaredRatings rest = [] := by
        simpa [declaredRatings, hd] using h2
      calc (sidecarStep (applySidecar m d) rest).rating
          = (applySidecar m d).rating :=
            ih (applySidecar m d) (by simpa [noRaisesB] using h1) h2r
        _ = m.rating := applySidecar_rating_none hd m

/-- Sidecar processing splits across an append when the first part never
throws. -/
theorem sidecarStep_append :
    ∀ (a : List SidecarItem) (b : List SidecarItem) (m : PhotoMeta),
    noRaisesB a = true →
    sidecarStep m (a ++ b) = sidecarStep (sidecarStep m a) b := by
  intro a
  induction a with
  | nil => intro b m _; rfl
  | cons it rest ih =>
    intro b m h
    match it with
    | .raises => simp [noRaisesB] at h
    | .parsed none =>
      simpa [sidecarStep] using ih b m (by simpa [noRaisesB] using h)
    | .parsed (some d) =>
      simpa [sidecarStep] using
        ih b (applySidecar m d) (by simpa [noRaisesB] using h)

/-- The last declared sidecar rating is the final one. -/
theorem sidecarStep_last_rating (m : PhotoMeta)
    (pre post : List SidecarItem) (d : SideCar) (r : Int)
    (hpre : noRaisesB pre = true) (hpost : noRaisesB post = true)
    (hd : d.xmp_Rating = some r) (hlast : declaredRatings post = []) :
    (sidecarStep m (pre ++ SidecarItem.parsed (some d) :: post)).rating =
      some r := by
  rw [sidecarStep_append pre _ m hpre]
  calc (sidecarStep (applySidecar (sidecarStep m pre) d) post).rating
      = (applySidecar (sidecarStep m pre) d).rating :=
        sidecarStep_rating_const post _ hpost hlast
    _ = some r := applySidecar_rating_some hd _

/-- C5: when an existing sidecar candidate declares an xmp rating (and it
is the last declared one, later candidates staying silent and no candidate
parse throwing), the final rating of loadPhotoMetadata equals exactly that
sidecar rating, whatever rating was derived earlier from the embedded
metadata. -/
theorem sidecar_rating_overwrites (dp : String → Option Int)
    (env : PhotoEnv) (pre post : List SidecarItem) (d : SideCar) (r : Int)
    (henv : env.sidecars = pre ++ SidecarItem.parsed (some d) :: post)
    (hread : env.readFails = false)
    (hpre : noRaisesB pre = true) (hpost : noRaisesB post = true)
    (hd : d.xmp_Rating = some r) (hlast : declaredRatings post = []) :
    (loadPhotoMetadata dp env).rating = some r := by
  unfold loadPhotoMetadata
  rw [hread]
  simp only [Bool.false_eq_true, if_false, henv]
  exact sidecarStep_last_rating _ pre post d r hpre hpost hd hlast

/-- C5 witness: embedded rating 3 with one sidecar declaring rating 5
yields final rating 5. -/
theorem sidecar_rating_overwrites_witness :
    (loadPhotoMetadata dpNone envRating3Side5).rating = some 5 :=
  sidecar_rating_overwrites dpNone envRating3Side5 [] [] ⟨none, some 5⟩ 5
    rfl rfl rfl rfl rfl rfl

/-! ## Theorems: keyword deduplication (C8) -/

/-- The dedup-push fold keeps the accumulator free of duplicates. -/
theorem foldl_dedup_nodup :
    ∀ (new : List String) (acc : List String), acc.Nodup →
    (new.foldl (fun acc kw => if acc.contains kw then acc else acc ++ [kw])
      acc).Nodup := by
  intro new
  induction new with
  | nil => intro acc h; exact h
  | cons k ks ih =>
    intro acc h
    simp only [List.foldl_cons]
    by_cases hc : acc.contains k
    · rw [if_pos hc]
      exact ih acc h
    · rw [if_neg hc]
      refine ih (acc ++ [k]) ?_
      have hk : k ∉ acc := by simpa using hc
      simp [List.nodup_append, h, hk]

/-- Merging new keywords with dedup into a duplicate-free (or absent)
list keeps it duplicate-free. -/
theorem mergeKeywords_nodup (new : List String)
    (cur : Option (List String)) (h : ∀ l, cur = some l → l.Nodup) :
    (mergeKeywords cur new).Nodup := by
  unfold mergeKeywords
  apply foldl_dedup_nodup
  cases cur with
  | none => simp
  | some l => exact h l rfl

/-- Erasing the face names keeps the list free of duplicates. -/
theorem foldl_erase_nodup :
    ∀ (faces : List Face) (ks : List String), ks.Nodup →
    (faces.foldl (fun acc f => acc.erase f.name) ks).Nodup := by
  intro faces
  induction faces with
  | nil => intro ks h; exact h
  | cons f fs ih =>
    intro ks h
    simp only [List.foldl_cons]
    exact ih _ (h.erase f.name)

/-- Keyword outcome of the IPTC section: unchanged, or the verbatim parsed
array. -/
theorem iptcStep_keywords_cases (iptc : Option IptcData) (m : PhotoMeta) :
    (iptcStep iptc m).keywords = m.keywords ∨
    (∃ d, iptc = some d ∧ (iptcStep iptc m).keywords = d.keywords) := by
  unfold iptcStep
  rcases iptc with _ | d
  · exact Or.inl rfl
  · cases hk : d.keywords with
    | none =>
      left
      simp only [hk]
      cases d.date_time <;> rfl
    | some ks =>
      right
      refine ⟨d, rfl, ?_⟩
      simp only [hk]
      cases d.date_time <;> rfl

/-- The IPTC section preserves the keyword invariant when the parsed
keyword array itself is duplicate-free. -/
theorem iptcStep_kwinv (iptc : Option IptcData) (m : PhotoMeta)
    (hm : KwInv m)
    (hi : ∀ d, iptc = some d → ∀ l, d.keywords = some l → l.Nodup) :
    KwInv (iptcStep iptc m) := by
  rcases iptcStep_keywords_cases iptc m with hc | ⟨d, hd, hc⟩
  · intro l hl
    exact hm l (hc ▸ hl)
  · intro l hl
    rw [hc] at hl
    exact hi d hd l hl

/-- The dc section preserves the keyword invariant. -/
theorem dcStep_kwinv (e : ExifData) (s : EState) (h : KwInv s.m) :
    KwInv (dcStep e s).m := by
  unfold dcStep
  split
  · split_ifs
    · intro l hkw
      simp at hkw
      exact hkw ▸ mergeKeywords_nodup _ s.m.keywords h
    · exact h
  · exact h

/-- The ifd0 section never touches the keyword list. -/
theorem ifd0Step_keywords (e : ExifData) (s : EState) :
    (ifd0Step e s).m.keywords = s.m.keywords := by
  unfold ifd0Step
  split
  · rfl
  · simp only []
    (repeat' split) <;> rfl

/-- The exif section never touches the keyword list on the normal path. -/
theorem exifSectionStep_keywords_ok {dp : String → Option Int}
    {e : ExifData} {s s2 : EState}
    (h : exifSectionStep dp e s = .ok s2) :
    s2.m.keywords = s.m.keywords := by
  unfold exifSectionStep at h
  split at h
  · cases h
    rfl
  · split at h
    · simp at h
    · cases h
      simp only []
      (repeat' split) <;> rfl

/-- The exif section never touches the keyword list at a throw either. -/
theorem exifSectionStep_keywords_error {dp : String → Option Int}
    {e : ExifData} {s : EState} {m : PhotoMeta}
    (h : exifSectionStep dp e s = .error m) :
    m.keywords = s.m.keywords := by
  unfold exifSectionStep at h
  split at h
  · simp at h
  · split at h
    · cases h
      rfl
    · simp at h

/-- The size fix never touches the keyword list. -/
theorem sizeFixStep_keywords (probe : Option MSize) (s : EState) :
    (sizeFixStep probe s).m.keywords = s.m.keywords := by
  unfold sizeFixStep
  split_ifs
  · cases probe <;> rfl
  · rfl

/-- The orientation swap never touches the keyword list. -/
theorem orientationSwapStep_keywords (s : EState) :
    (orientationSwapStep s).m.keywords = s.m.keywords := by
  unfold orientationSwapStep
  split_ifs <;> rfl

/-- The xmp rating never touches the keyword list. -/
theorem xmpStep_keywords (e : ExifData) (s : EState) :
    (xmpStep e s).m.keywords = s.m.keywords := by
  unfold xmpStep
  (repeat' split) <;> rfl

/-- The face section preserves the keyword invariant on the normal
path. -/
theorem facesStep_kwinv_ok {fe kp : Bool} {e : ExifData} {s s2 : EState}
    (hF : facesStep fe kp e s = .ok s2) (h : KwInv s.m) : KwInv s2.m := by
  unfold facesStep at hF
  by_cases hfe : fe = true
  case neg =>
    simp [hfe] at hF
    exact hF ▸ h
  case pos =>
    cases hreg : e.regions with
    | none =>
      simp [hfe, hreg] at hF
      exact hF ▸ h
    | some rl =>
      by_cases hlen :
        0 < (rl.filterMap (processRegion s.orientation s.m.size)).length
      case neg =>
        simp [hfe, hreg, hlen] at hF
        exact hF ▸ h
      case pos =>
        by_cases hkp : kp = true
        case neg =>
          simp [hfe, hreg, hlen, hkp] at hF
          intro l hl
          rw [← hF] at hl
          simp at hl
          exact h l hl
        case pos =>
          cases hkw : s.m.keywords with
          | none => simp [hfe, hreg, hlen, hkp, hkw] at hF
          | some ks =>
            simp [hfe, hreg, hlen, hkp, hkw] at hF
            intro l hl
            rw [← hF] at hl
            simp at hl
            exact hl ▸ foldl_erase_nodup _ _ (h _ hkw)

/-- The face section preserves the keyword invariant at the indexOf throw
too. -/
theorem facesStep_kwinv_error {fe kp : Bool} {e : ExifData} {s : EState}
    {m : PhotoMeta} (hF : facesStep fe kp e s = .error m) (h : KwInv s.m) :
    KwInv m := by
  unfold facesStep at hF
  by_cases hfe : fe = true
  case neg => simp [hfe] at hF
  case pos =>
    cases hreg : e.regions with
    | none => simp [hfe, hreg] at hF
    | some rl =>
      by_cases hlen :
        0 < (rl.filterMap (processRegion s.orientation s.m.size)).length
      case neg => simp [hfe, hreg, hlen] at hF
      case pos =>
        by_cases hkp : kp = true
        case neg => simp [hfe, hreg, hlen, hkp] at hF
        case pos =>
          cases hkw : s.m.keywords with
          | some ks => simp [hfe, hreg, hlen, hkp, hkw] at hF
          | none =>
            simp [hfe, hreg, hlen, hkp, hkw] at hF
            intro l hl
            rw [← hF] at hl
            simp at hl

/-- The whole exif block preserves the keyword invariant. -/
theorem exifBlock_kwinv (dp : String → Option Int) (fe kp : Bool)
    (probe : Option MSize) (ed : Option ExifData) (m0 : PhotoMeta)
    (h : KwInv m0) : KwInv (exifBlock dp fe kp probe ed m0) := by
  unfold exifBlock
  rcases ed with _ | e
  · exact h
  · simp only []
    have h1 : KwInv (dcStep e ⟨m0, 1⟩).m := dcStep_kwinv e ⟨m0, 1⟩ h
    have h2 : KwInv (ifd0Step e (dcStep e ⟨m0, 1⟩)).m := by
      intro l hl
      exact h1 l ((ifd0Step_keywords e _) ▸ hl)
    cases hE : exifSectionStep dp e (ifd0Step e (dcStep e ⟨m0, 1⟩)) with
    | error m =>
      show KwInv m
      intro l hl
      have hl2 : m.keywords = some l := hl
      rw [exifSectionStep_keywords_error hE] at hl2
      exact h2 l hl2
    | ok s2 =>
      show KwInv
        (match facesStep fe kp e
            (xmpStep e (orientationSwapStep (sizeFixStep probe s2))) with
          | Except.error m => m
          | Except.ok s5 => s5.m)
      have h4 : KwInv s2.m := by
        intro l hl
        have hl2 := hl
        rw [exifSectionStep_keywords_ok hE] at hl2
        exact h2 l hl2
      have h6 : KwInv
          (xmpStep e (orientationSwapStep (sizeFixStep probe s2))).m := by
        intro l hl
        refine h4 l ?_
        rw [xmpStep_keywords, orientationSwapStep_keywords,
          sizeFixStep_keywords] at hl
        exact hl
      cases hF : facesStep fe kp e
          (xmpStep e (orientationSwapStep (sizeFixStep probe s2))) with
      | error m =>
        show KwInv m
        exact facesStep_kwinv_error hF h6
      | ok s5 =>
        show KwInv s5.m
        exact facesStep_kwinv_ok hF h6

/-- Keyword outcome of one sidecar merge: unchanged, or a dedup-merge of
the subject list. -/
theorem applySidecar_keywords_cases (m : PhotoMeta) (d : SideCar) :
    (applySidecar m d).keywords = m.keywords ∨
    (∃ subj, d.dc_subject = some subj ∧
      (applySidecar m d).keywords = some (mergeKeywords m.keywords subj)) := by
  unfold applySidecar
  cases hs : d.dc_subject with
  | none =>
    left
    cases d.xmp_Rating <;> rfl
  | some subj =>
    right
    refine ⟨subj, rfl, ?_⟩
    cases d.xmp_Rating <;> rfl

/-- The falsy-creationDate fix preserves the keyword invariant. -/
theorem creationDateFix_kwinv (m : PhotoMeta) (h : KwInv m) :
    KwInv (creationDateFix m) := by
  unfold creationDateFix
  split_ifs
  · exact h
  · intro l hl
    exact h l (by simpa using hl)

/-- Sidecar merging preserves the keyword invariant. -/
theorem sidecarStep_kwinv :
    ∀ (l : List SidecarItem) (m : PhotoMeta), KwInv m →
    KwInv (sidecarStep m l) := by
  intro l
  induction l with
  | nil => intro m h; exact h
  | cons it rest ih =>
    intro m h
    match it with
    | .raises => exact h
    | .parsed none => exact ih m h
    | .parsed (some d) =>
      refine ih (applySidecar m d) ?_
      rcases applySidecar_keywords_cases m d with hc | ⟨subj, _, hc⟩
      · intro l2 hl2
        exact h l2 (hc ▸ hl2)
      · intro l2 hl2
        rw [hc] at hl2
        cases hl2
        exact mergeKeywords_nodup subj m.keywords h

/-- C8 (amended): the final keyword list of loadPhotoMetadata is free of
duplicate exact strings whenever the IPTC keyword array itself is
duplicate-free or absent — the IPTC array is stored verbatim, while the
dc.subject and sidecar subject contributions are deduplicated against the
list and the face-name removal only erases. -/
theorem photo_keywords_nodup (dp : String → Option Int) (env : PhotoEnv)
    (hi : ∀ d, env.iptc = some d → ∀ l, d.keywords = some l → l.Nodup) :
    KwInv (loadPhotoMetadata dp env) := by
  unfold loadPhotoMetadata
  by_cases hr : env.readFails = true
  · rw [if_pos hr]
    intro l hl
    simp [EMPTY_METADATA] at hl
  · rw [if_neg hr]
    have h1 : KwInv (statStep env.statResult initialPhotoMeta) := by
      unfold statStep initialPhotoMeta
      rcases env.statResult with _ | ⟨sz, mt⟩ <;> intro l hl <;> simp at hl
    have h2 := iptcStep_kwinv env.iptc (statStep env.statResult initialPhotoMeta) h1 hi
    have h3 := exifBlock_kwinv dp env.facesEnabled env.keywordsToPersons
      env.probe env.exifData _ h2
    exact sidecarStep_kwinv env.sidecars _ (creationDateFix_kwinv _ h3)

/-- C8 witness: mixing IPTC keywords a b, dc.subject b c and a sidecar
subject list a d yields the duplicate-free list a b c d. -/
theorem photo_keywords_nodup_witness :
    ((loadPhotoMetadata dpNone envKwMix).keywords.getD []).Nodup := by
  have h := photo_keywords_nodup dpNone envKwMix
    (by intro d hd l hl; cases hd; cases hl; decide)
  have hkw : (loadPhotoMetadata dpNone envKwMix).keywords =
      some ["a", "b", "c", "d"] := by decide
  rw [hkw]
  exact h ["a", "b", "c", "d"] hkw

end PiGallery2
